import Mathlib

/-!
Verification of the Intent Router core of the Rivertown conversational
front-end (`bedrock_utils.py`).

Strings are modelled as `List Char`.  Python string operations
(`str.lower`, `str.title`, `str.isdigit`, slicing, substring test) are
embedded as ASCII-faithful functions on character lists.  The regex
cascade of `extract_customer_name` is embedded via a small backtracking
matcher whose search order mirrors Python `re.search`: earliest start
position wins, alternation is left-biased, `?`/`+`/`*` are greedy,
`*?` is lazy.  Backend adapters (order store, language model, outbound
calling service) are parameters of the routing functions; a raised
Python exception is an `Except.error`, a returned value is `Except.ok`.
-/

/-- The apostrophe character, written by code point. -/
def apos : Char := Char.ofNat 39

/-- Convenience conversion from a string literal to the character-list model. -/
def chars (s : String) : List Char := s.toList

/-- ASCII lower-casing of one character, as Python `str.lower` acts on ASCII. -/
def lowerChar (c : Char) : Char :=
  if 65 ≤ c.toNat ∧ c.toNat ≤ 90 then Char.ofNat (c.toNat + 32) else c

/-- ASCII upper-casing of one character. -/
def upperChar (c : Char) : Char :=
  if 97 ≤ c.toNat ∧ c.toNat ≤ 122 then Char.ofNat (c.toNat - 32) else c

/-- Python `str.lower` on the ASCII fragment. -/
def lowerStr (s : List Char) : List Char := s.map lowerChar

/-- Python `str.isdigit` on the ASCII fragment. -/
def isDigitChar (c : Char) : Bool := 48 ≤ c.toNat && c.toNat ≤ 57

/-- Python `str.isalpha` restricted to the regex class `[a-zA-Z]`. -/
def isAlphaChar (c : Char) : Bool :=
  (97 ≤ c.toNat && c.toNat ≤ 122) || (65 ≤ c.toNat && c.toNat ≤ 90)

/-- Whitespace characters matched by the regex class `\s` (ASCII fragment). -/
def isSpaceChar (c : Char) : Bool :=
  c.toNat = 32 || c.toNat = 9 || c.toNat = 10 || c.toNat = 13 || c.toNat = 11 || c.toNat = 12

/-- Python `str.title` on the ASCII fragment: the first alphabetic character
of every alphabetic run is upper-cased, the rest are lower-cased. -/
def titleGo : Bool → List Char → List Char
  | _, [] => []
  | prevAlpha, c :: rest =>
    if isAlphaChar c then
      (if prevAlpha then lowerChar c else upperChar c) :: titleGo true rest
    else
      c :: titleGo false rest

/-- Python `str.title` on the ASCII fragment. -/
def titleStr (s : List Char) : List Char := titleGo false s

/-- Regular-expression syntax used by the name-extraction cascade:
character classes, sequencing, left-biased alternation, greedy option,
greedy star, lazy star, and numbered capture groups. -/
inductive RE where
  | eps : RE
  | cls : (Char → Bool) → RE
  | seq : RE → RE → RE
  | alt : RE → RE → RE
  | opt : RE → RE
  | starG : RE → RE
  | starL : RE → RE
  | grp : Nat → RE → RE

/-- Captured groups of a match: group index paired with captured characters. -/
abbrev Caps := List (Nat × List Char)

/-- Backtracking matcher in continuation-passing style.  The continuation
receives the unconsumed suffix and the captures recorded so far; the first
continuation success (in Python backtracking order) is returned.  `fuel` is
decremented on every recursive call so that the recursion is structural; the
callers below always supply enough fuel (pattern size plus input length plus
slack) that the bound is never reached on a live search path. -/
def matchRE : Nat → RE → List Char → Caps → (List Char → Caps → Option Caps) → Option Caps
  | 0, _, _, _, _ => none
  | fuel + 1, r, s, caps, k =>
    match r with
    | .eps => k s caps
    | .cls p =>
      match s with
      | [] => none
      | c :: s2 => if p c then k s2 caps else none
    | .seq a b => matchRE fuel a s caps (fun s2 caps2 => matchRE fuel b s2 caps2 k)
    | .alt a b => (matchRE fuel a s caps k).orElse (fun _ => matchRE fuel b s caps k)
    | .opt r1 => (matchRE fuel r1 s caps k).orElse (fun _ => k s caps)
    | .starG r1 =>
      (matchRE fuel r1 s caps (fun s2 caps2 => matchRE fuel (.starG r1) s2 caps2 k)).orElse
        (fun _ => k s caps)
    | .starL r1 =>
      (k s caps).orElse
        (fun _ => matchRE fuel r1 s caps (fun s2 caps2 => matchRE fuel (.starL r1) s2 caps2 k))
    | .grp i r1 =>
      matchRE fuel r1 s caps (fun s2 caps2 => k s2 ((i, s.take (s.length - s2.length)) :: caps2))

/-- Node count of a regex, used to size the matcher's fuel. -/
def sizeRE : RE → Nat
  | .eps => 1
  | .cls _ => 1
  | .seq a b => sizeRE a + sizeRE b + 1
  | .alt a b => sizeRE a + sizeRE b + 1
  | .opt r => sizeRE r + 1
  | .starG r => sizeRE r + 1
  | .starL r => sizeRE r + 1
  | .grp _ r => sizeRE r + 1

/-- Attempt an (unanchored) match of `r` at the current position, then at
each later position, as Python `re.search` does: the earliest start position
admitting a match wins. -/
def searchFrom (r : RE) : List Char → Option Caps
  | [] => matchRE (sizeRE r + 8) r [] [] (fun _ caps => some caps)
  | c :: t2 =>
    match matchRE (sizeRE r + 2 * t2.length + 10) r (c :: t2) [] (fun _ caps => some caps) with
    | some caps => some caps
    | none => searchFrom r t2

/-- Sequence a list of regex fragments. -/
def seqs (l : List RE) : RE := l.foldr RE.seq RE.eps

/-- A literal string as a regex. -/
def lit (s : List Char) : RE :=
  seqs (s.map fun c => RE.cls (fun x => x == c))

/-- The regex class `\s`. -/
def wsRE : RE := RE.cls isSpaceChar

/-- The regex `\s+`. -/
def wsPlus : RE := RE.seq wsRE (RE.starG wsRE)

/-- The regex `[a-zA-Z]+`. -/
def alphaPlus : RE := RE.seq (RE.cls isAlphaChar) (RE.starG (RE.cls isAlphaChar))

/-- The regex `.` (any character except newline). -/
def dotAny : RE := RE.cls (fun c => !(c.toNat == 10))

/-- The regex fragment `(?:'s)`. -/
def aposS : RE := lit (apos :: chars "s")

/-- The regex fragment `orders?`. -/
def ordersOpt : RE := RE.seq (lit (chars "order")) (RE.opt (lit (chars "s")))

/-- Pattern 1 of `extract_customer_name`:
`show\s+(?:me\s+)?(?:the\s+)?(?:orders?\s+(?:for|of)\s+)?([a-zA-Z]+)\s+([a-zA-Z]+)`. -/
def pat1 : RE :=
  seqs [lit (chars "show"), wsPlus,
    RE.opt (seqs [lit (chars "me"), wsPlus]),
    RE.opt (seqs [lit (chars "the"), wsPlus]),
    RE.opt (seqs [ordersOpt, wsPlus, RE.alt (lit (chars "for")) (lit (chars "of")), wsPlus]),
    RE.grp 1 alphaPlus, wsPlus, RE.grp 2 alphaPlus]

/-- Pattern 2: `(?:what\s+(?:are|were)\s+)?([a-zA-Z]+)\s+([a-zA-Z]+)(?:'s)?\s+orders?`. -/
def pat2 : RE :=
  seqs [RE.opt (seqs [lit (chars "what"), wsPlus,
      RE.alt (lit (chars "are")) (lit (chars "were")), wsPlus]),
    RE.grp 1 alphaPlus, wsPlus, RE.grp 2 alphaPlus, RE.opt aposS, wsPlus, ordersOpt]

/-- Pattern 3: `find\s+(?:the\s+)?orders?\s+(?:for|of)\s+([a-zA-Z]+)\s+([a-zA-Z]+)`. -/
def pat3 : RE :=
  seqs [lit (chars "find"), wsPlus, RE.opt (seqs [lit (chars "the"), wsPlus]),
    ordersOpt, wsPlus, RE.alt (lit (chars "for")) (lit (chars "of")), wsPlus,
    RE.grp 1 alphaPlus, wsPlus, RE.grp 2 alphaPlus]

/-- Pattern 4: `(?:get|fetch|pull|retrieve)\s+([a-zA-Z]+)\s+([a-zA-Z]+)(?:'s)?\s+orders?`. -/
def pat4 : RE :=
  seqs [RE.alt (lit (chars "get"))
      (RE.alt (lit (chars "fetch")) (RE.alt (lit (chars "pull")) (lit (chars "retrieve")))),
    wsPlus, RE.grp 1 alphaPlus, wsPlus, RE.grp 2 alphaPlus, RE.opt aposS, wsPlus, ordersOpt]

/-- Pattern 5: `([a-zA-Z]+)\s+([a-zA-Z]+)(?:'s)?\s+(?:order|purchase|transaction)s?`. -/
def pat5 : RE :=
  seqs [RE.grp 1 alphaPlus, wsPlus, RE.grp 2 alphaPlus, RE.opt aposS, wsPlus,
    RE.alt (lit (chars "order")) (RE.alt (lit (chars "purchase")) (lit (chars "transaction"))),
    RE.opt (lit (chars "s"))]

/-- Pattern 6: `orders?\s+(?:for|by|from)\s+([a-zA-Z]+)\s+([a-zA-Z]+)`. -/
def pat6 : RE :=
  seqs [ordersOpt, wsPlus,
    RE.alt (lit (chars "for")) (RE.alt (lit (chars "by")) (lit (chars "from"))), wsPlus,
    RE.grp 1 alphaPlus, wsPlus, RE.grp 2 alphaPlus]

/-- Pattern 7 (the catch-all): `.*?(?:order|purchase|history).*?([a-zA-Z]+)\s+([a-zA-Z]+)`. -/
def pat7 : RE :=
  seqs [RE.starL dotAny,
    RE.alt (lit (chars "order")) (RE.alt (lit (chars "purchase")) (lit (chars "history"))),
    RE.starL dotAny, RE.grp 1 alphaPlus, wsPlus, RE.grp 2 alphaPlus]

/-- The ordered pattern cascade of `extract_customer_name`. -/
def namePatterns : List RE := [pat1, pat2, pat3, pat4, pat5, pat6, pat7]

/-- Run one pattern against the (already lower-cased) prompt and title-case
the two captured groups, as the loop body of `extract_customer_name` does. -/
def runNamePattern (r : RE) (s : List Char) : Option (List Char × List Char) :=
  match searchFrom r s with
  | some caps => some (titleStr ((caps.lookup 1).getD []), titleStr ((caps.lookup 2).getD []))
  | none => none

/-- Try the cascade in order; the first pattern that matches wins. -/
def firstNameMatch : List RE → List Char → Option (List Char × List Char)
  | [], _ => none
  | r :: rest, s =>
    match runNamePattern r s with
    | some v => some v
    | none => firstNameMatch rest s

/-- `extract_customer_name` from `bedrock_utils.py`: lower-case the prompt,
try the seven patterns in order, return the two captures title-cased. -/
def extract_customer_name (prompt : List Char) : Option (List Char × List Char) :=
  firstNameMatch namePatterns (lowerStr prompt)

/-- An order record, as the dictionaries returned by the order store and
consumed by `format_order_table`.  `total_price` is a Python float formatted
with `:.2f`; it is modelled here as an exact count of cents (the claims and
the spec only exercise exact two-decimal values). -/
structure OrderRecord where
  order_id : List Char
  product : List Char
  quantity : Nat
  order_date : List Char
  total_price_cents : Nat
deriving DecidableEq

/-- Decimal digits of a natural number, as Python `str(int)` renders it. -/
def natChars (n : Nat) : List Char := (Nat.repr n).toList

/-- Python `f-string` formatting `{x:.2f}` on an exact cent count. -/
def priceChars (cents : Nat) : List Char :=
  natChars (cents / 100) ++ chars "." ++
    (if cents % 100 < 10 then chars "0" else []) ++ natChars (cents % 100)

/-- Literal head of the order-history markup (lines 68-80 of the source). -/
def tableHead : List Char := chars "\n    <div style=\"\n        font-family: sans-serif;\n        max-width: 800px;\n        margin: 0 auto;\n        padding: 20px;\n    \">\n        <h2 style=\"\n            color: #1e3a8a;\n            text-align: center;\n            margin-bottom: 20px;\n        \">📦 Order History</h2>\n    "

/-- Literal opening of one order block, up to the truncated order id. -/
def blockPre : List Char := chars "\n        <div style=\"\n            background: white;\n            border-radius: 8px;\n            padding: 20px;\n            margin-bottom: 20px;\n            box-shadow: 0 2px 4px rgba(0,0,0,0.1);\n        \">\n            <div style=\"\n                font-size: 1.2em;\n                font-weight: bold;\n                color: #1e3a8a;\n                margin-bottom: 15px;\n            \">\n                "

/-- Literal between the truncated order id and the product name. -/
def blockMidB : List Char := chars "\n            </div>\n            \n            <div style=\"\n                display: grid;\n                grid-template-columns: repeat(auto-fit, minmax(200px, 1fr));\n                gap: 15px;\n                margin-bottom: 15px;\n            \">\n                <div style=\"padding: 10px; background: #f8f9fa; border-radius: 5px;\">\n                    <div style=\"font-size: 0.9em; color: #666;\">Product</div>\n                    <div style=\"font-weight: 500; color: #333;\">"

/-- Literal between the product name and the quantity. -/
def blockMidC : List Char := chars "</div>\n                </div>\n                \n                <div style=\"padding: 10px; background: #f8f9fa; border-radius: 5px;\">\n                    <div style=\"font-size: 0.9em; color: #666;\">Quantity</div>\n                    <div style=\"font-weight: 500; color: #333;\">"

/-- Literal between the quantity's unit suffix and the order date. -/
def blockMidD : List Char := chars "</div>\n                </div>\n                \n                <div style=\"padding: 10px; background: #f8f9fa; border-radius: 5px;\">\n                    <div style=\"font-size: 0.9em; color: #666;\">Order Date</div>\n                    <div style=\"font-weight: 500; color: #333;\">"

/-- Literal between the order date and the total price. -/
def blockMidE : List Char := chars "</div>\n                </div>\n            </div>\n            \n            <div style=\"\n                text-align: right;\n                font-size: 1.1em;\n                color: #1e3a8a;\n                font-weight: bold;\n                padding-top: 10px;\n                border-top: 1px solid #eee;\n            \">\n                Total Amount: "

/-- Literal tail of one order block. -/
def blockEnd : List Char := chars "\n            </div>\n        </div>\n        "

/-- One markup block of `format_order_table` (the f-string of lines 83-133):
truncated order id, product, quantity with unit suffix, date, and price with
currency prefix, interleaved with the literal markup. -/
def orderBlock (o : OrderRecord) : List Char :=
  blockPre ++ (chars "Order #" ++ o.order_id.take 8 ++ chars "...") ++ blockMidB ++
    o.product ++ blockMidC ++ (natChars o.quantity ++ chars " units") ++ blockMidD ++
    o.order_date ++ blockMidE ++ (chars "$" ++ priceChars o.total_price_cents) ++ blockEnd

/-- The notice returned for an empty order list. -/
def noOrdersText : List Char := chars "<div>No orders found.</div>"

/-- `format_order_table` from `bedrock_utils.py`: the empty list yields the
no-orders notice; otherwise the header, one block per order appended in loop
order, and a closing tag. -/
def format_order_table (orders : List OrderRecord) : List Char :=
  if orders.isEmpty then noOrdersText
  else (orders.foldl (fun h o => h ++ orderBlock o) tableHead) ++ chars "</div>"

/-- Python `str.isdigit` filter: the digit characters of a string in order. -/
def digitsOf (s : List Char) : List Char := s.filter isDigitChar

/-- `extract_phone_number` from `bedrock_utils.py`: strip non-digits; exactly
10 digits get prefix `+1`; exactly 11 digits starting with `1` get prefix
`+`; anything else is `none`. -/
def extract_phone_number (prompt : List Char) : Option (List Char) :=
  let cleaned := digitsOf prompt
  if cleaned.length = 10 then some (chars "+1" ++ cleaned)
  else if cleaned.length = 11 ∧ cleaned.head? = some (Char.ofNat 49) then
    some (chars "+" ++ cleaned)
  else none

/-- The fixed customer-service trigger phrases (lines 230-234). -/
def csKeywords : List (List Char) :=
  [chars "speak to someone", chars "talk to a person", chars "customer service",
   chars "representative", chars "speak to a human", chars "talk to someone",
   chars "call me", chars "contact me"]

/-- Python substring test `needle in hay`: the needle is a prefix of some
suffix of the haystack. -/
def containsSub (needle : List Char) : List Char → Bool
  | [] => needle.isEmpty
  | c :: t => needle.isPrefixOf (c :: t) || containsSub needle t

/-- The `is_cs_request` test: some trigger phrase occurs in the lower-cased prompt. -/
def is_cs_request (prompt : List Char) : Bool :=
  csKeywords.any (fun k => containsSub k (lowerStr prompt))

/-- The digit count used by `is_just_numbers`: `sum(c.isdigit() for c in prompt)`. -/
def countDigits (prompt : List Char) : Nat := prompt.countP isDigitChar

/-- Python slice `[-10:]`. -/
def last10 (l : List Char) : List Char := l.drop (l.length - 10)

/-- The call-back normalization of line 245: `+1` before the last ten digits. -/
def formattedPhone (prompt : List Char) : List Char := chars "+1" ++ last10 (digitsOf prompt)

/-- The outbound-call request body (lines 248-259).  `temperature` is the
Python float `0.8`, held as exact tenths. -/
structure CallRequest where
  phone_number : List Char
  task : List Char
  model : List Char
  voice : List Char
  max_duration : Nat
  wait_for_greeting : Bool
  temperature_tenths : Nat
deriving DecidableEq

/-- The fixed call script of the request body. -/
def callTask : List Char := chars "You are Sara from Rivertown Ball Company following up on a chat conversation they were just having, looking to ask them if they have any questions you can help with. \n                Start the call with: \"Hi, this is Sara from Rivertown Ball Company!\"\n                Be warm, friendly and helpful while assisting with their questions about our artisanal wooden balls.\n                Make them feel valued and excited about our products!"

/-- Build the call request for a normalized phone number. -/
def mkCallRequest (fp : List Char) : CallRequest :=
  ⟨fp, callTask, chars "turbo", chars "Alexa", 12, true, 8⟩

/-- The fixed prompt asking for a callback number (lines 239-241). -/
def csPromptText : List Char :=
  chars "I" ++ [apos] ++
    chars "d be happy to have Sara, our customer service specialist, give you a call! What" ++
    [apos] ++
    chars "s the best phone number to reach you at? You can share it in any format like: 123-456-7890 or (123) 456-7890"

/-- Python slice `[-10:-7]`. -/
def sliceA (fp : List Char) : List Char := (fp.drop (fp.length - 10)).take 3

/-- Python slice `[-7:-4]`. -/
def sliceB (fp : List Char) : List Char := (fp.drop (fp.length - 7)).take 3

/-- Python slice `[-4:]`. -/
def sliceC (fp : List Char) : List Char := fp.drop (fp.length - 4)

/-- The `XXX-XXX-XXXX` display form interpolated at lines 269-270. -/
def dashedPhone (fp : List Char) : List Char :=
  sliceA fp ++ chars "-" ++ sliceB fp ++ chars "-" ++ sliceC fp

/-- The confirmation text returned on call success (lines 269-272). -/
def confirmText (fp : List Char) : List Char :=
  chars "Perfect! Sara will be calling you right now at " ++ dashedPhone fp ++
    chars ". She" ++ [apos] ++
    chars "s looking forward to helping you with any questions you have about our artisanal wooden balls!"

/-- The apology returned on a non-200 call status (lines 275-276). -/
def callFailText : List Char :=
  chars "I apologize, but I" ++ [apos] ++
    chars "m having trouble connecting with Sara at the moment. Please try again in a few minutes or call us directly at (719) 266-2837"

/-- The apology returned when the call attempt raises (lines 282-283). -/
def csErrorText : List Char :=
  chars "I apologize, but I" ++ [apos] ++
    chars "m experiencing technical difficulties arranging the call. Please contact our customer service directly at (719) 266-2837"

/-- Outcome of one `handle_customer_service_request` turn: whether an
outbound-call request was issued, and the returned value (Python returns a
string or `None`). -/
structure CSOutcome where
  call : Option CallRequest
  response : Option (List Char)
deriving DecidableEq

/-- `handle_customer_service_request` from `bedrock_utils.py`.  The outbound
POST is the `place_call` parameter: `Except.error` models a raised request
exception (swallowed by the handler's `except` clause, lines 280-283),
`Except.ok` carries the HTTP status code.  A trigger phrase returns the fixed
prompt before any digits are examined; a digit-heavy prompt issues the call
and reports success only on status 200. -/
def handle_customer_service_request (place_call : CallRequest → Except (List Char) Nat)
    (prompt : List Char) : CSOutcome :=
  if is_cs_request prompt then ⟨none, some csPromptText⟩
  else if 10 ≤ countDigits prompt then
    let fp := formattedPhone prompt
    let req := mkCallRequest fp
    match place_call req with
    | .ok code => if code = 200 then ⟨some req, some (confirmText fp)⟩
                  else ⟨some req, some callFailText⟩
    | .error _ => ⟨some req, some csErrorText⟩
  else ⟨none, none⟩

/-- Content kind of a routed response: the `type` tag of the returned dict. -/
inductive RKind where
  | text : RKind
  | html : RKind
deriving DecidableEq

/-- A routed response: the `{type, content}` dict returned to the caller. -/
structure RoutedResponse where
  kind : RKind
  content : List Char
deriving DecidableEq

/-- The not-found text of line 159. -/
def notFoundText (first_name last_name : List Char) : List Char :=
  chars "I couldn" ++ [apos] ++ chars "t find any orders for " ++ first_name ++
    chars " " ++ last_name ++ chars ". Would you like to place a new order?"

/-- The language-model apology of lines 192-193. -/
def lmApologyText : List Char :=
  chars "I apologize, but I" ++ [apos] ++
    chars "m having trouble connecting to my language model. Please try again in a moment."

/-- The prompt template wrapped around the utterance (line 168). -/
def lmPromptBody (prompt : List Char) : List Char :=
  chars "\n\nHuman: " ++ prompt ++ chars "\n\nAssistant:"

/-- Python `dict.get` with a default, over the parsed response body modelled
as an association list of string fields. -/
def dictGet (d : List (List Char × List Char)) (key dflt : List Char) : List Char :=
  match d.lookup key with
  | some v => v
  | none => dflt

/-- The `completion` field name. -/
def completionKey : List Char := chars "completion"

/-- `get_response_with_rag` from `bedrock_utils.py`.  `get_customer_orders`
is the order-store adapter and `invoke_model` the language-model adapter;
`Except.error` models a raised exception.  A name match queries the store:
a store error reaches the outer handler, which logs and re-raises (lines
196-198), so it surfaces as `Except.error`.  Without a name match the model
is invoked on the wrapped prompt; a model error is caught by the inner
handler (lines 189-194) and becomes the fixed apology, and a successful
body missing the `completion` field yields the empty string (line 187). -/
def get_response_with_rag
    (get_customer_orders : List Char × List Char → Except (List Char) (List OrderRecord))
    (invoke_model : List Char → Except (List Char) (List (List Char × List Char)))
    (prompt : List Char) : Except (List Char) RoutedResponse :=
  match extract_customer_name prompt with
  | some (first_name, last_name) =>
    match get_customer_orders (first_name, last_name) with
    | .error e => .error e
    | .ok orders =>
      if orders.isEmpty then .ok ⟨.text, notFoundText first_name last_name⟩
      else .ok ⟨.html, format_order_table orders⟩
  | none =>
    match invoke_model (lmPromptBody prompt) with
    | .ok body => .ok ⟨.text, dictGet body completionKey []⟩
    | .error _ => .ok ⟨.text, lmApologyText⟩

/-- Outcome of one routed turn: the tagged response, the outbound-call
request issued this turn (if any), and the updated awaiting-phone flag. -/
structure RouteOutcome where
  response : RoutedResponse
  call : Option CallRequest
  awaitingPhone : Bool
deriving DecidableEq

/-- Modelled from the spec: the combined per-turn router
(`chat_service.get_combined_response`, imported by `app.py` but not present
under `src/`) is reconstructed from spec section 4.4, composing the
source-embedded pieces in the stated precedence: (1) an extracted name
always routes to the order lookup of `get_response_with_rag` (a store
failure degrades to the not-found reply, the graceful option named in spec
section 7); (2) a customer-service trigger phrase returns the fixed prompt
and sets the awaiting-phone flag; (3) ten or more digit characters issue
the outbound call via the `handle_customer_service_request` logic and clear
the flag regardless of outcome; (4) otherwise the language model answers. -/
def route (get_customer_orders : List Char × List Char → Except (List Char) (List OrderRecord))
    (place_call : CallRequest → Except (List Char) Nat)
    (invoke_model : List Char → Except (List Char) (List (List Char × List Char)))
    (prompt : List Char) (awaiting : Bool) : RouteOutcome :=
  match extract_customer_name prompt with
  | some (first_name, last_name) =>
    match get_customer_orders (first_name, last_name) with
    | .error _ => ⟨⟨.text, notFoundText first_name last_name⟩, none, awaiting⟩
    | .ok orders =>
      if orders.isEmpty then ⟨⟨.text, notFoundText first_name last_name⟩, none, awaiting⟩
      else ⟨⟨.html, format_order_table orders⟩, none, awaiting⟩
  | none =>
    if is_cs_request prompt then ⟨⟨.text, csPromptText⟩, none, true⟩
    else if 10 ≤ countDigits prompt then
      let fp := formattedPhone prompt
      let req := mkCallRequest fp
      match place_call req with
      | .ok code => if code = 200 then ⟨⟨.text, confirmText fp⟩, some req, false⟩
                    else ⟨⟨.text, callFailText⟩, some req, false⟩
      | .error _ => ⟨⟨.text, csErrorText⟩, some req, false⟩
    else
      match invoke_model (lmPromptBody prompt) with
      | .ok body => ⟨⟨.text, dictGet body completionKey []⟩, none, awaiting⟩
      | .error _ => ⟨⟨.text, lmApologyText⟩, none, awaiting⟩

/-- Occurrences of a pattern in a string: the number of positions at which
the pattern is a prefix of the remaining suffix. -/
def countOcc (pat : List Char) : List Char → Nat
  | [] => if pat.isEmpty then 1 else 0
  | c :: t => (if pat.isPrefixOf (c :: t) then 1 else 0) + countOcc pat t


/-- Code points survive `Char.ofNat` for the ASCII shifts used in case mapping. -/
theorem toNat_ofNat_small (n : Nat) (h : n < 256) : (Char.ofNat n).toNat = n := by
  have hv : Nat.isValidChar n := Or.inl (by omega)
  unfold Char.ofNat
  split
  · rfl
  · exact absurd hv (by assumption)

/-- Lower-casing a character twice is the same as once. -/
theorem lowerChar_idem (c : Char) : lowerChar (lowerChar c) = lowerChar c := by
  by_cases h : 65 ≤ c.toNat ∧ c.toNat ≤ 90
  · have ht : (Char.ofNat (c.toNat + 32)).toNat = c.toNat + 32 :=
      toNat_ofNat_small _ (by omega)
    unfold lowerChar
    rw [if_pos h, if_neg (show ¬ (65 ≤ (Char.ofNat (c.toNat + 32)).toNat ∧
      (Char.ofNat (c.toNat + 32)).toNat ≤ 90) from by rw [ht]; omega)]
  · unfold lowerChar
    rw [if_neg h, if_neg h]

/-- Lower-casing a string twice is the same as once. -/
theorem lowerStr_idem (s : List Char) : lowerStr (lowerStr s) = lowerStr s := by
  unfold lowerStr
  rw [List.map_map]
  exact List.map_congr_left (fun c _ => lowerChar_idem c)

/-- Name extraction only sees the lower-cased prompt, so re-casing the
prompt to lower case does not change the result. -/
theorem extract_customer_name_lower (prompt : List Char) :
    extract_customer_name (lowerStr prompt) = extract_customer_name prompt := by
  unfold extract_customer_name
  rw [lowerStr_idem]

/-- Appending order blocks with a left fold is the header followed by the
concatenation of the blocks in input order. -/
theorem foldl_orderBlock (l : List OrderRecord) (init : List Char) :
    l.foldl (fun h o => h ++ orderBlock o) init = init ++ (l.map orderBlock).flatten := by
  induction l generalizing init with
  | nil => simp
  | cons o t ih => simp [ih, List.append_assoc]

/-- The empty needle occurs in every haystack. -/
theorem containsSub_nil (l : List Char) : containsSub [] l = true := by
  cases l <;> simp [containsSub, List.isPrefixOf]

/-- A needle occurs in any haystack that displays it between two contexts. -/
theorem containsSub_of_append (a x b : List Char) : containsSub x (a ++ x ++ b) = true := by
  induction a with
  | nil =>
    cases x with
    | nil => simpa using containsSub_nil b
    | cons c t =>
      have hp : (c :: t).isPrefixOf ((c :: t) ++ b) = true :=
        List.isPrefixOf_iff_prefix.mpr (List.prefix_append _ _)
      simp [containsSub, hp]
  | cons c a ih =>
    rw [List.cons_append, List.cons_append]
    simp only [containsSub, Bool.or_eq_true]
    exact Or.inr ih

/-- Decimal rendering of one digit is one character long. -/
theorem natChars_length_one (n : Nat) (h : n < 10) : (natChars n).length = 1 := by
  interval_cases n <;> rfl

/-- Decimal rendering of a two-digit number is two characters long. -/
theorem natChars_length_two (n : Nat) (h1 : 10 ≤ n) (h2 : n < 100) :
    (natChars n).length = 2 := by
  interval_cases n <;> rfl

/-- The price formatter always renders the cent count as the whole-unit part,
a decimal point, and exactly two fractional digits. -/
theorem priceChars_two_decimals (c : Nat) :
    ∃ fr, priceChars c = natChars (c / 100) ++ (chars "." ++ fr) ∧ fr.length = 2 := by
  refine ⟨(if c % 100 < 10 then chars "0" else []) ++ natChars (c % 100), ?_, ?_⟩
  · simp [priceChars, List.append_assoc]
  · have hr : c % 100 < 100 := Nat.mod_lt _ (by omega)
    by_cases h : c % 100 < 10
    · rw [if_pos h, List.length_append, natChars_length_one _ h,
        show (chars "0").length = 1 from rfl]
    · rw [if_neg h]
      simpa using natChars_length_two _ (by omega) hr

/-- The dashed display form groups the ten digits after the `+1` prefix as
three, three, and four digits. -/
theorem dashedPhone_groups (x : List Char) (hx : x.length = 10) :
    dashedPhone (chars "+1" ++ x) =
      x.take 3 ++ chars "-" ++ ((x.drop 3).take 3 ++ (chars "-" ++ x.drop 6)) := by
  have hy : (chars "+1" ++ x).length = 12 := by
    simp [List.length_append, hx]
    rfl
  have hA : sliceA (chars "+1" ++ x) = x.take 3 := by
    unfold sliceA
    rw [hy, show (12 - 10 : Nat) = 2 from rfl,
      List.drop_left' (show (chars "+1").length = 2 from rfl)]
  have hB : sliceB (chars "+1" ++ x) = (x.drop 3).take 3 := by
    unfold sliceB
    rw [hy, show (12 - 7 : Nat) = (chars "+1").length + 3 from rfl, List.drop_append]
  have hC : sliceC (chars "+1" ++ x) = x.drop 6 := by
    unfold sliceC
    rw [hy, show (12 - 4 : Nat) = (chars "+1").length + 6 from rfl, List.drop_append]
  simp [dashedPhone, hA, hB, hC, List.append_assoc]

/-- The digit count used by `is_just_numbers` is the length of the stripped
digit string. -/
theorem countDigits_eq_length_digitsOf (s : List Char) :
    countDigits s = (digitsOf s).length := by
  simp [countDigits, digitsOf, List.countP_eq_length_filter]

/-- Claim C1, counterexample: with a name-matching utterance and an order
store whose lookup raises, `get_response_with_rag` propagates the failure to
its caller as a raised error (the handler of lines 196-198 re-raises), so
not every failure path returns a response value. -/
theorem c1_store_failure_raises :
    get_response_with_rag
      (fun _ => .error (chars "store unavailable")) (fun _ => .ok [])
      (chars "orders for john smith") = .error (chars "store unavailable") := rfl

/-- Claim C1, amended: `handle_customer_service_request` always returns a
response value on its trigger and digit paths whatever the calling adapter
does, and the only failure `get_response_with_rag` ever propagates as a
raised error is an order-store failure under a name match; language-model
failures are converted to a response. -/
theorem c1_failure_containment
    (os : List Char × List Char → Except (List Char) (List OrderRecord))
    (lm : List Char → Except (List Char) (List (List Char × List Char)))
    (pc : CallRequest → Except (List Char) Nat) (prompt : List Char) :
    (∀ e, get_response_with_rag os lm prompt = .error e →
      ∃ nm, extract_customer_name prompt = some nm ∧ os nm = .error e)
    ∧ (is_cs_request prompt = true ∨ 10 ≤ countDigits prompt →
      (handle_customer_service_request pc prompt).response.isSome = true) := by
  constructor
  · intro e he
    cases hn : extract_customer_name prompt with
    | none =>
      simp only [get_response_with_rag, hn] at he
      cases hlm : lm (lmPromptBody prompt) with
      | ok body => rw [hlm] at he; exact absurd he (by simp)
      | error e2 => rw [hlm] at he; exact absurd he (by simp)
    | some nm =>
      obtain ⟨f, l⟩ := nm
      simp only [get_response_with_rag, hn] at he
      cases hos : os (f, l) with
      | error e2 =>
        rw [hos] at he
        have : e2 = e := by simpa using he
        exact ⟨(f, l), rfl, by rw [hos, this]⟩
      | ok orders =>
        rw [hos] at he
        by_cases ho : orders.isEmpty <;> simp [ho] at he
  · intro h
    unfold handle_customer_service_request
    by_cases hcs : is_cs_request prompt = true
    · simp [hcs]
    · have hd : 10 ≤ countDigits prompt := h.resolve_left hcs
      simp only [hcs, if_false, Bool.false_eq_true, hd, if_pos]
      cases pc (mkCallRequest (formattedPhone prompt)) with
      | ok code => by_cases h200 : code = 200 <;> simp [h200]
      | error e => simp

/-- Claim C1, witness for the amended theorem at a concrete failing store. -/
theorem c1_failure_containment_witness :
    ∃ nm, extract_customer_name (chars "orders for john smith") = some nm ∧
      (fun _ : List Char × List Char =>
        (Except.error (chars "down") : Except (List Char) (List OrderRecord))) nm
        = .error (chars "down") :=
  (c1_failure_containment (fun _ => .error (chars "down")) (fun _ => .ok [])
    (fun _ => .ok 200) (chars "orders for john smith")).1 (chars "down") rfl

/-- Claim C2: a digit-heavy non-trigger utterance issues the outbound call
with `+1` before the last ten digits of the utterance, and on status 200 the
returned confirmation text contains those ten digits grouped three-three-four
with dashes. -/
theorem c2_callback_call_and_confirmation
    (pc : CallRequest → Except (List Char) Nat) (prompt : List Char)
    (hcs : is_cs_request prompt = false) (hd : 10 ≤ countDigits prompt) :
    (handle_customer_service_request pc prompt).call
        = some (mkCallRequest (formattedPhone prompt))
    ∧ formattedPhone prompt = chars "+1" ++ last10 (digitsOf prompt)
    ∧ (last10 (digitsOf prompt)).length = 10
    ∧ dashedPhone (formattedPhone prompt) = (last10 (digitsOf prompt)).take 3 ++ chars "-" ++
        (((last10 (digitsOf prompt)).drop 3).take 3 ++ (chars "-" ++ (last10 (digitsOf prompt)).drop 6))
    ∧ (pc (mkCallRequest (formattedPhone prompt)) = .ok 200 →
        (handle_customer_service_request pc prompt).response
            = some (confirmText (formattedPhone prompt))
        ∧ containsSub (dashedPhone (formattedPhone prompt))
            (confirmText (formattedPhone prompt)) = true) := by
  have hlen : (last10 (digitsOf prompt)).length = 10 := by
    rw [countDigits_eq_length_digitsOf] at hd
    simp only [last10, List.length_drop]
    omega
  have hbranch : handle_customer_service_request pc prompt =
      (match pc (mkCallRequest (formattedPhone prompt)) with
       | .ok code =>
         if code = 200 then
           ⟨some (mkCallRequest (formattedPhone prompt)), some (confirmText (formattedPhone prompt))⟩
         else ⟨some (mkCallRequest (formattedPhone prompt)), some callFailText⟩
       | .error _ => ⟨some (mkCallRequest (formattedPhone prompt)), some csErrorText⟩) := by
    unfold handle_customer_service_request
    simp [hcs, hd]
  refine ⟨?_, rfl, hlen, ?_, ?_⟩
  · rw [hbranch]
    cases pc (mkCallRequest (formattedPhone prompt)) with
    | ok code => by_cases h200 : code = 200 <;> simp [h200]
    | error e => simp
  · have := dashedPhone_groups (last10 (digitsOf prompt)) hlen
    simpa [formattedPhone] using this
  · intro hok
    constructor
    · rw [hbranch, hok]
      simp
    · have hconf : confirmText (formattedPhone prompt) =
          chars "Perfect! Sara will be calling you right now at " ++
            dashedPhone (formattedPhone prompt) ++
            (chars ". She" ++ ([apos] ++
              chars "s looking forward to helping you with any questions you have about our artisanal wooden balls!")) := by
        simp [confirmText, List.append_assoc]
      rw [hconf]
      exact containsSub_of_append _ _ _

/-- Claim C2, witness at the spec's end-to-end example utterance. -/
theorem c2_callback_witness :
    (handle_customer_service_request (fun _ => .ok 200) (chars "(719) 555-0199")).call
        = some (mkCallRequest (chars "+17195550199"))
    ∧ (handle_customer_service_request (fun _ => .ok 200) (chars "(719) 555-0199")).response
        = some (confirmText (chars "+17195550199"))
    ∧ containsSub (chars "719-555-0199") (confirmText (chars "+17195550199")) = true := by
  have h := c2_callback_call_and_confirmation (fun _ => .ok 200) (chars "(719) 555-0199")
    (by decide) (by decide)
  have hfp : formattedPhone (chars "(719) 555-0199") = chars "+17195550199" := by decide
  have hsucc := h.2.2.2.2 rfl
  refine ⟨?_, ?_, ?_⟩
  · rw [← hfp]; exact h.1
  · rw [← hfp]; exact hsucc.1
  · have hdash : dashedPhone (chars "+17195550199") = chars "719-555-0199" := by decide
    have := hsucc.2
    rw [hfp, hdash] at this
    exact this

/-- Claim C3, counterexample: the utterance below contains the two-token
name pair adjacent to (directly after) the order keyword, yet
`extract_customer_name` returns a different pair, because the catch-all
pattern captures the trailing `s` of `orders` as the first token. -/
theorem c3_adjacent_name_cex :
    chars "orders john smith" =
      chars "orders" ++ (chars " " ++ (chars "john" ++ (chars " " ++ chars "smith")))
    ∧ extract_customer_name (chars "orders john smith") = some (chars "S", chars "John")
    ∧ ¬ extract_customer_name (chars "orders john smith")
        = some (chars "John", chars "Smith") := by
  refine ⟨by decide, by decide, by decide⟩

/-- Claim C3, amended: extraction is invariant under re-casing of the input
(the prompt is lower-cased before matching), and on the exemplar phrasings
the adjacent name pair is returned title-cased; in general the first pattern
of the cascade that matches determines the returned pair, which can differ
from the adjacent name pair. -/
theorem c3_casing_invariant_exemplar :
    (∀ s : List Char, extract_customer_name (lowerStr s) = extract_customer_name s)
    ∧ extract_customer_name (chars "show me john smith" ++ [apos] ++ chars "s orders")
        = some (chars "John", chars "Smith")
    ∧ extract_customer_name (chars "SHOW ME JOHN SMITH" ++ [apos] ++ chars "S ORDERS")
        = some (chars "John", chars "Smith") :=
  ⟨extract_customer_name_lower, by decide, by decide⟩

/-- Claim C4: exactly ten stripped digits gain the `+1` prefix, exactly
eleven beginning with `1` gain the `+` prefix, and every other digit count
yields no phone number. -/
theorem c4_phone_extraction_cases (s : List Char) :
    ((digitsOf s).length = 10 → extract_phone_number s = some (chars "+1" ++ digitsOf s))
    ∧ ((digitsOf s).length = 11 → (digitsOf s).head? = some (Char.ofNat 49) →
        extract_phone_number s = some (chars "+" ++ digitsOf s))
    ∧ ((digitsOf s).length ≠ 10 →
        ¬ ((digitsOf s).length = 11 ∧ (digitsOf s).head? = some (Char.ofNat 49)) →
        extract_phone_number s = none) := by
  refine ⟨fun h => ?_, fun h11 hh => ?_, fun h10 hn => ?_⟩
  · simp [extract_phone_number, h]
  · have h10 : ¬ (digitsOf s).length = 10 := by omega
    simp [extract_phone_number, h10, h11, hh]
  · simp only [extract_phone_number]
    rw [if_neg h10, if_neg hn]

/-- Claim C4, witness at the spec's example digit strings. -/
theorem c4_phone_extraction_witness :
    extract_phone_number (chars "7195551234") = some (chars "+17195551234")
    ∧ extract_phone_number (chars "17195551234") = some (chars "+17195551234")
    ∧ extract_phone_number (chars "5551234") = none := by
  refine ⟨?_, ?_, ?_⟩
  · have h := (c4_phone_extraction_cases (chars "7195551234")).1 (by decide)
    rw [show chars "+1" ++ digitsOf (chars "7195551234") = chars "+17195551234" from by decide] at h
    exact h
  · have h := (c4_phone_extraction_cases (chars "17195551234")).2.1 (by decide) (by decide)
    rw [show chars "+" ++ digitsOf (chars "17195551234") = chars "+17195551234" from by decide] at h
    exact h
  · exact (c4_phone_extraction_cases (chars "5551234")).2.2 (by decide) (by decide)

/-- Claim C5: an utterance containing a trigger phrase always gets the fixed
callback-number prompt and never issues an outbound call on that turn, for
every calling adapter and hence even when ten or more digits are present. -/
theorem c5_trigger_fixed_prompt_no_call
    (pc : CallRequest → Except (List Char) Nat) (prompt : List Char)
    (h : is_cs_request prompt = true) :
    handle_customer_service_request pc prompt = ⟨none, some csPromptText⟩ := by
  unfold handle_customer_service_request
  simp [h]

/-- Claim C5, witness: a trigger phrase together with eleven digits still
returns the fixed prompt with no call issued. -/
theorem c5_trigger_witness :
    (is_cs_request (chars "please call me at 12345678901") = true
      ∧ 10 ≤ countDigits (chars "please call me at 12345678901"))
    ∧ handle_customer_service_request (fun _ => .ok 200)
        (chars "please call me at 12345678901") = ⟨none, some csPromptText⟩ :=
  ⟨by decide, c5_trigger_fixed_prompt_no_call _ _ (by decide)⟩

/-- Claim C6: when a name is extracted and the order store answers, the
router returns the order-lookup response and issues no outbound call, for
every session state and in particular for utterances that also carry ten or
more digit characters. -/
theorem c6_order_lookup_wins
    (os : List Char × List Char → Except (List Char) (List OrderRecord))
    (pc : CallRequest → Except (List Char) Nat)
    (lm : List Char → Except (List Char) (List (List Char × List Char)))
    (prompt : List Char) (awaiting : Bool) (f l : List Char) (orders : List OrderRecord)
    (hname : extract_customer_name prompt = some (f, l))
    (hos : os (f, l) = .ok orders)
    (hd : 10 ≤ countDigits prompt) :
    (route os pc lm prompt awaiting).call = none
    ∧ (route os pc lm prompt awaiting).response =
        (if orders.isEmpty then ⟨.text, notFoundText f l⟩
         else ⟨.html, format_order_table orders⟩) := by
  by_cases ho : orders.isEmpty <;> simp [route, hname, hos, ho]

/-- Claim C6, witness: a name-and-digits utterance routes to the order
lookup (here an empty result) and issues no call. -/
theorem c6_order_lookup_witness :
    (route (fun _ => .ok []) (fun _ => .ok 200) (fun _ => .ok [])
        (chars "orders for john smith 12345678901") false).call = none
    ∧ (route (fun _ => .ok []) (fun _ => .ok 200) (fun _ => .ok [])
        (chars "orders for john smith 12345678901") false).response
        = ⟨.text, notFoundText (chars "John") (chars "Smith")⟩ := by
  have h := c6_order_lookup_wins (fun _ => .ok []) (fun _ => .ok 200) (fun _ => .ok [])
    (chars "orders for john smith 12345678901") false (chars "John") (chars "Smith") []
    (by decide) rfl (by decide)
  exact ⟨h.1, by simpa using h.2⟩

/-- Claim C7: on the general-chat fallback, a raised language-model error is
converted into the fixed apology of kind text, and a successful payload
lacking the completion field becomes a blank text response. -/
theorem c7_fallback_failures
    (os : List Char × List Char → Except (List Char) (List OrderRecord))
    (lm : List Char → Except (List Char) (List (List Char × List Char)))
    (prompt : List Char) (hname : extract_customer_name prompt = none) :
    (∀ e, lm (lmPromptBody prompt) = .error e →
      get_response_with_rag os lm prompt = .ok ⟨.text, lmApologyText⟩)
    ∧ (∀ body, lm (lmPromptBody prompt) = .ok body → body.lookup completionKey = none →
      get_response_with_rag os lm prompt = .ok ⟨.text, []⟩) := by
  constructor
  · intro e he
    simp [get_response_with_rag, hname, he]
  · intro body hb hmiss
    simp [get_response_with_rag, hname, hb, dictGet, hmiss]

/-- Claim C7, witness at the spec's end-to-end example utterance, with an
unavailable model and with a malformed (empty) payload. -/
theorem c7_fallback_witness :
    get_response_with_rag (fun _ => .ok []) (fun _ => .error (chars "unavailable"))
        (chars "tell me a joke") = .ok ⟨.text, lmApologyText⟩
    ∧ get_response_with_rag (fun _ => .ok []) (fun _ => .ok [])
        (chars "tell me a joke") = .ok ⟨.text, []⟩ :=
  ⟨(c7_fallback_failures _ _ _ (by decide)).1 _ rfl,
   (c7_fallback_failures _ _ _ (by decide)).2 [] rfl rfl⟩

/-- Claim C8: a non-empty order list is rendered as the header, one block
per record in input order, and a closing tag, and each block displays the
first eight characters of the order id with an ellipsis, the product, the
quantity with a unit suffix, the date, and the price with a currency prefix
and exactly two decimal places. -/
theorem c8_order_blocks (orders : List OrderRecord) (h : orders ≠ []) :
    format_order_table orders = tableHead ++ ((orders.map orderBlock).flatten ++ chars "</div>")
    ∧ ∀ o ∈ orders,
        (chars "Order #" ++ (o.order_id.take 8 ++ chars "...")) <:+: orderBlock o
        ∧ o.product <:+: orderBlock o
        ∧ (natChars o.quantity ++ chars " units") <:+: orderBlock o
        ∧ o.order_date <:+: orderBlock o
        ∧ (chars "$" ++ priceChars o.total_price_cents) <:+: orderBlock o
        ∧ ∃ fr, priceChars o.total_price_cents =
            natChars (o.total_price_cents / 100) ++ (chars "." ++ fr) ∧ fr.length = 2 := by
  constructor
  · unfold format_order_table
    rw [if_neg (by simpa [List.isEmpty_iff] using h), foldl_orderBlock, List.append_assoc]
  · intro o _
    refine ⟨?_, ?_, ?_, ?_, ?_, priceChars_two_decimals _⟩
    · exact ⟨blockPre,
        blockMidB ++ (o.product ++ (blockMidC ++ ((natChars o.quantity ++ chars " units") ++
          (blockMidD ++ (o.order_date ++ (blockMidE ++
            ((chars "$" ++ priceChars o.total_price_cents) ++ blockEnd))))))),
        by simp [orderBlock, List.append_assoc]⟩
    · exact ⟨blockPre ++ ((chars "Order #" ++ (o.order_id.take 8 ++ chars "...")) ++ blockMidB),
        blockMidC ++ ((natChars o.quantity ++ chars " units") ++
          (blockMidD ++ (o.order_date ++ (blockMidE ++
            ((chars "$" ++ priceChars o.total_price_cents) ++ blockEnd))))),
        by simp [orderBlock, List.append_assoc]⟩
    · exact ⟨blockPre ++ ((chars "Order #" ++ (o.order_id.take 8 ++ chars "...")) ++
          (blockMidB ++ (o.product ++ blockMidC))),
        blockMidD ++ (o.order_date ++ (blockMidE ++
          ((chars "$" ++ priceChars o.total_price_cents) ++ blockEnd))),
        by simp [orderBlock, List.append_assoc]⟩
    · exact ⟨blockPre ++ ((chars "Order #" ++ (o.order_id.take 8 ++ chars "...")) ++
          (blockMidB ++ (o.product ++ (blockMidC ++ ((natChars o.quantity ++ chars " units") ++
            blockMidD))))),
        blockMidE ++ ((chars "$" ++ priceChars o.total_price_cents) ++ blockEnd),
        by simp [orderBlock, List.append_assoc]⟩
    · exact ⟨blockPre ++ ((chars "Order #" ++ (o.order_id.take 8 ++ chars "...")) ++
          (blockMidB ++ (o.product ++ (blockMidC ++ ((natChars o.quantity ++ chars " units") ++
            (blockMidD ++ (o.order_date ++ blockMidE))))))),
        blockEnd,
        by simp [orderBlock, List.append_assoc]⟩

/-- Claim C8, witness at the spec's example record. -/
theorem c8_order_blocks_witness :
    format_order_table
        [⟨chars "abcd1234efgh", chars "Maple Sphere", 2, chars "2024-01-05", 3998⟩]
      = tableHead ++
        (orderBlock ⟨chars "abcd1234efgh", chars "Maple Sphere", 2, chars "2024-01-05", 3998⟩ ++
          chars "</div>")
    ∧ chars "Order #abcd1234..." <:+:
        orderBlock ⟨chars "abcd1234efgh", chars "Maple Sphere", 2, chars "2024-01-05", 3998⟩
    ∧ chars "Maple Sphere" <:+:
        orderBlock ⟨chars "abcd1234efgh", chars "Maple Sphere", 2, chars "2024-01-05", 3998⟩
    ∧ chars "2 units" <:+:
        orderBlock ⟨chars "abcd1234efgh", chars "Maple Sphere", 2, chars "2024-01-05", 3998⟩
    ∧ chars "2024-01-05" <:+:
        orderBlock ⟨chars "abcd1234efgh", chars "Maple Sphere", 2, chars "2024-01-05", 3998⟩
    ∧ chars "$39.98" <:+:
        orderBlock ⟨chars "abcd1234efgh", chars "Maple Sphere", 2, chars "2024-01-05", 3998⟩ := by
  have h := c8_order_blocks
    [⟨chars "abcd1234efgh", chars "Maple Sphere", 2, chars "2024-01-05", 3998⟩] (by simp)
  have hb := h.2 _ (List.mem_singleton.mpr rfl)
  refine ⟨by simpa using h.1, ?_, hb.2.1, ?_, hb.2.2.2.1, ?_⟩
  · exact (show chars "Order #abcd1234..." =
      chars "Order #" ++ ((chars "abcd1234efgh").take 8 ++ chars "...") from by decide) ▸ hb.1
  · exact (show chars "2 units" = natChars 2 ++ chars " units" from by decide) ▸ hb.2.2.1
  · exact (show chars "$39.98" = chars "$" ++ priceChars 3998 from by decide) ▸ hb.2.2.2.2.1

/-- Claim C9: the empty order list yields the single no-orders notice, which
contains exactly one such notice and no order blocks. -/
theorem c9_empty_orders_notice :
    format_order_table [] = noOrdersText
    ∧ countOcc (chars "No orders found") (format_order_table []) = 1
    ∧ countOcc (chars "Order #") (format_order_table []) = 0 := by
  refine ⟨rfl, by decide, by decide⟩

/-- Claim C10: whenever the strict extractor accepts an input, the number it
returns is exactly the call-back normalization of line 245, `+1` before the
last ten digit characters of the input. -/
theorem c10_normalizations_agree (s p : List Char)
    (h : extract_phone_number s = some p) :
    p = formattedPhone s := by
  by_cases h10 : (digitsOf s).length = 10
  · have he : extract_phone_number s = some (chars "+1" ++ digitsOf s) := by
      simp [extract_phone_number, h10]
    rw [he] at h
    injection h with h2
    rw [← h2]
    unfold formattedPhone last10
    rw [h10]
    simp
  · by_cases h11 : (digitsOf s).length = 11 ∧ (digitsOf s).head? = some (Char.ofNat 49)
    · have he : extract_phone_number s = some (chars "+" ++ digitsOf s) := by
        simp [extract_phone_number, h10, h11]
      rw [he] at h
      injection h with h2
      have hp : p = chars "+" ++ digitsOf s := h2.symm
      obtain ⟨hlen, hhead⟩ := h11
      cases hd : digitsOf s with
      | nil => rw [hd] at hhead; exact absurd hhead (by simp)
      | cons c t =>
        rw [hd] at hhead hlen hp
        have hc : c = Char.ofNat 49 := by simpa using hhead
        subst hc
        unfold formattedPhone last10
        rw [hd, hlen, hp]
        rfl
    · have hn : extract_phone_number s = none := by
        simp only [extract_phone_number]
        rw [if_neg h10, if_neg h11]
      rw [hn] at h
      exact absurd h (by simp)

/-- Claim C10, witness: a bare ten-digit string is normalized identically by
both routines. -/
theorem c10_normalizations_witness :
    chars "+17195551234" = formattedPhone (chars "7195551234") :=
  c10_normalizations_agree (chars "7195551234") (chars "+17195551234") (by decide)
